import Mathlib

/-!
Shallow embedding of `src/transaction_security.py` (beloveddie/transactionshield).

The script routes financial transactions through a mock risk evaluator
(`analyze_transaction_risk`), auto-approves low/medium risk transactions, and for
high/critical risk runs an agent workflow whose single tool, `confirm_transaction`,
emits one human-review prompt, waits for the matching reviewer response, and returns
an outcome message. `main` then sets the disposition fields from a substring test
on that message and prints a final APPROVED/REJECTED report.

Modelling notes:
- Python strings are Lean `String`s; `str.strip().lower()` is modelled character-wise
  (`pyStrip`, `pyLower`) following CPython semantics for the ASCII inputs involved.
- Python float amounts are modelled as rationals; their f-string rendering is
  abstracted by `renderFloat` (the digit characters never influence any verified
  property, only the substring "approved" is ever searched for).
- The agent workflow layer (`AgentWorkflow.from_tools_or_functions`) is modelled as a
  single invocation of the `confirm_transaction` tool, as its system prompt mandates
  for high/critical transactions, with the final handler response equal to the tool
  return value.
- Timestamps (`datetime.now().isoformat()`) are opaque strings supplied as inputs.
-/

namespace TransactionShield

/-- Risk levels for transactions (`class RiskLevel(str, Enum)` in the source). -/
inductive RiskLevel where
  | low
  | medium
  | high
  | critical
deriving DecidableEq, Repr

/-- The string value carried by each `RiskLevel` enum member. -/
def riskLevelStr : RiskLevel → String
  | RiskLevel.low => "low"
  | RiskLevel.medium => "medium"
  | RiskLevel.high => "high"
  | RiskLevel.critical => "critical"

/-- Transaction types (`class TransactionType(str, Enum)` in the source). -/
inductive TransactionType where
  | deposit
  | withdrawal
  | transfer
  | payment
  | currency_exchange
  | wire
deriving DecidableEq, Repr

/-- The string value carried by each `TransactionType` enum member. -/
def transactionTypeStr : TransactionType → String
  | TransactionType.deposit => "deposit"
  | TransactionType.withdrawal => "withdrawal"
  | TransactionType.transfer => "transfer"
  | TransactionType.payment => "payment"
  | TransactionType.currency_exchange => "currency_exchange"
  | TransactionType.wire => "wire"

/-- The transaction record (`class TransactionModel(BaseModel)` in the source).
Amounts are rationals standing for the Python floats; datetime values are the
ISO strings the script actually passes around. -/
structure TransactionModel where
  transaction_id : String
  account_id : String
  transaction_type : TransactionType
  amount : ℚ
  currency : String
  recipient : Option String
  recipient_account : Option String
  timestamp : String
  location : Option String
  ip_address : Option String
  device_id : Option String
  risk_level : Option RiskLevel
  risk_factors : Option (List String)
  approved : Bool
  approved_by : Option String
  approval_date : Option String
deriving DecidableEq, Repr

/-- The account record (`class AccountModel(BaseModel)` in the source). -/
structure AccountModel where
  account_id : String
  customer_name : String
  account_type : String
  balance : ℚ
  currency : String
  daily_limit : ℚ
  country : String
  usual_countries : List String
  usual_transaction_amounts : List ℚ
  usual_recipients : List String
  transaction_history_summary : String
deriving DecidableEq, Repr

/-- CPython `str.isspace` characters relevant to `str.strip()` with no argument. -/
def pyIsSpace (c : Char) : Bool :=
  c == ' ' || c == '\t' || c == '\n' || c == '\r' || c == '\x0b' || c == '\x0c'

/-- CPython `str.lower` on one ASCII character. -/
def pyLowerChar (c : Char) : Char :=
  if 'A' ≤ c && c ≤ 'Z' then Char.ofNat (c.toNat + 32) else c

/-- CPython `str.upper` on one ASCII character. -/
def pyUpperChar (c : Char) : Char :=
  if 'a' ≤ c && c ≤ 'z' then Char.ofNat (c.toNat - 32) else c

/-- Python `s.lower()`. -/
def pyLower (s : String) : String := String.mk (s.data.map pyLowerChar)

/-- Python `s.upper()`. -/
def pyUpper (s : String) : String := String.mk (s.data.map pyUpperChar)

/-- Python `s.strip()`: remove leading and trailing whitespace. -/
def pyStrip (s : String) : String :=
  String.mk (((s.data.dropWhile pyIsSpace).reverse.dropWhile pyIsSpace).reverse)

/-- Does `needle` occur as a prefix of `hay`? (helper for substring search) -/
def substrAt : List Char → List Char → Bool
  | [], _ => true
  | _ :: _, [] => false
  | a :: as, b :: bs => (a == b) && substrAt as bs

/-- Does `needle` occur as a contiguous substring of `hay`? -/
def containsSub (needle : List Char) : List Char → Bool
  | [] => substrAt needle []
  | c :: rest => substrAt needle (c :: rest) || containsSub needle rest

/-- Python `needle in hay` on strings. -/
def pyContains (needle hay : String) : Bool := containsSub needle.data hay.data

/-- The test `"approved" in str(response).lower()` at line 357 of the source. -/
def contains_approved (s : String) : Bool := pyContains "approved" (pyLower s)

/-- Rendering of a Python float in an f-string, abstracted. Python would print
`25000.0`; the exact digit characters never matter to any property proved here
(only the substring "approved" is ever searched for in rendered messages), so the
rational amount is rendered with the rational `toString`. -/
def renderFloat (q : ℚ) : String := toString q

/-- Result of `analyze_transaction_risk`: the dict with keys `risk_level`,
`risk_factors`, `risk_explanation`. The `risk_factors` value is passed through
from the transaction in the high branch, so it keeps its optional type. -/
structure RiskAnalysis where
  risk_level : RiskLevel
  risk_factors : Option (List String)
  risk_explanation : String
deriving DecidableEq, Repr

/-- `analyze_transaction_risk(llm, transaction, account)` from the source: the LLM
call is commented out in the source; the active code returns mock data branching on
the pre-populated risk level. The discarded local prompt string (built and never
used, since the LLM call is commented out) is omitted. -/
def analyze_transaction_risk (transaction : TransactionModel)
    (account : AccountModel) : RiskAnalysis :=
  if transaction.risk_level = some RiskLevel.high then
    { risk_level := RiskLevel.high
      risk_factors := transaction.risk_factors
      risk_explanation := "This transaction shows multiple risk factors including an unusual destination country (Nigeria), an amount significantly higher than typical transactions, and a first-time recipient. The transaction amount of $25,000 exceeds the usual transaction pattern and is being sent to a country not in the list of usual countries for this account." }
  else
    { risk_level := RiskLevel.low
      risk_factors := some []
      risk_explanation := "This transaction appears to be normal based on the account history and transaction patterns. The amount is within typical ranges, the recipient is known, and the location matches the account holder\x27s usual activity area." }

/-- The outbound `InputRequiredEvent` of `confirm_transaction`: `user_name` and the
rendered text (the `prefix` keyword argument of the event in the source). -/
structure Prompt where
  user_name : String
  message_text : String
deriving DecidableEq, Repr

/-- The return string of `confirm_transaction` for a "yes" response (line 256). -/
def approval_message (transaction_id : String) (amount : ℚ)
    (currency reviewer_name : String) : String :=
  "Transaction " ++ transaction_id ++ " for " ++ renderFloat amount ++ " " ++
    currency ++ " has been approved by " ++ reviewer_name ++ "."

/-- The return string of `confirm_transaction` for an "investigate" response (line 258). -/
def investigation_message (transaction_id : String) : String :=
  "Transaction " ++ transaction_id ++ " has been marked for further investigation."

/-- The return string of `confirm_transaction` for any other response (line 260). -/
def rejection_message (transaction_id reviewer_name : String) : String :=
  "Transaction " ++ transaction_id ++ " has been rejected by " ++ reviewer_name ++ "."

/-- The `confirmation_text` f-string of `confirm_transaction` (lines 223-237); the
leading indentation whitespace of the Python triple-quoted literal is elided, the
line structure and content are kept. -/
def confirmation_text (transaction_id : String) (amount : ℚ)
    (currency transaction_type recipient risk_level : String)
    (risk_factors : List String) : String :=
  "\nTRANSACTION SECURITY ALERT\n\nTransaction ID: " ++ transaction_id ++
    "\nType: " ++ transaction_type ++
    "\nAmount: " ++ renderFloat amount ++ " " ++ currency ++
    "\nRecipient: " ++ recipient ++
    "\n\nRISK ASSESSMENT: " ++ pyUpper risk_level ++
    "\n\nRISK FACTORS:\n" ++
    (match risk_factors with
      | [] => "None identified"
      | fs => String.intercalate ", " fs) ++
    "\n\nTHIS TRANSACTION HAS BEEN AUTOMATICALLY PAUSED DUE TO ITS " ++
    pyUpper risk_level ++ " RISK LEVEL.\n"

/-- `confirm_transaction` (lines 211-260): emits exactly one `InputRequiredEvent`
prompt, awaits the `HumanResponseEvent` whose `user_name` matches `reviewer_name`,
normalizes the raw response with `.strip().lower()`, and returns the outcome
message. The awaited response raw text is the `raw_response` argument; the
function returns the prompt it sent together with its return string. -/
def confirm_transaction (transaction_id : String) (amount : ℚ)
    (currency transaction_type recipient risk_level : String)
    (risk_factors : List String) (reviewer_name raw_response : String) :
    Prompt × String :=
  let text := confirmation_text transaction_id amount currency transaction_type
      recipient risk_level risk_factors
  let p : Prompt :=
    { user_name := reviewer_name
      message_text := text ++ "\n\n" ++ reviewer_name ++
        ", do you authorize this transaction to proceed? (yes/no/investigate):" }
  let user_response := pyLower (pyStrip raw_response)
  if user_response = "yes" then
    (p, approval_message transaction_id amount currency reviewer_name)
  else if user_response = "investigate" then
    (p, investigation_message transaction_id)
  else
    (p, rejection_message transaction_id reviewer_name)

/-- Outcome of processing one transaction in the `main` loop: the mutated
transaction record, the prompts emitted for its session, and the workflow result
message (absent on the auto-approval path, which never runs the workflow). -/
structure SessionResult where
  transaction : TransactionModel
  prompts : List Prompt
  result_message : Option String
deriving DecidableEq, Repr

/-- The body of the per-transaction loop of `main` (lines 296-360) after the
`risk_analysis` binding: assign the risk fields, auto-approve low/medium risk
(lines 313-319), otherwise run the workflow — modelled as one `confirm_transaction`
call with the context fields `main` passes (lines 325-337) — and set the
disposition from the `"approved" in str(response).lower()` test (lines 357-360).
`now_iso` stands for the `datetime.now().isoformat()` values, `raw_response` for
the text the reviewer enters at the `input()` call. -/
def process_with_verdict (reviewer_name raw_response now_iso : String)
    (ra : RiskAnalysis) (t0 : TransactionModel) : SessionResult :=
  let t1 := { t0 with risk_level := some ra.risk_level, risk_factors := ra.risk_factors }
  if ra.risk_level = RiskLevel.low ∨ ra.risk_level = RiskLevel.medium then
    { transaction :=
        { t1 with
          approved := true
          approved_by := some "Auto-approval System"
          approval_date := some now_iso },
      prompts := [],
      result_message := none }
  else
    let pr := confirm_transaction t1.transaction_id t1.amount t1.currency
      (transactionTypeStr t1.transaction_type) (t1.recipient.getD "Unknown")
      (riskLevelStr ra.risk_level) (ra.risk_factors.getD []) reviewer_name
      raw_response
    let t2 :=
      if contains_approved pr.2 then
        { t1 with
          approved := true
          approved_by := some reviewer_name
          approval_date := some now_iso }
      else t1
    { transaction := t2, prompts := [pr.1], result_message := some pr.2 }

/-- One full iteration of the `main` loop for one transaction: evaluate risk, then
apply `process_with_verdict`. -/
def process_transaction (reviewer_name raw_response now_iso : String)
    (account : AccountModel) (t0 : TransactionModel) : SessionResult :=
  process_with_verdict reviewer_name raw_response now_iso
    (analyze_transaction_risk t0 account) t0

/-- The status string printed per transaction in the final summary (line 365):
`"APPROVED" if transaction.get(approved, False) else "REJECTED"`. -/
def report_status (t : TransactionModel) : String :=
  if t.approved then "APPROVED" else "REJECTED"

/-- First mock transaction TRX-001 of `get_mock_transactions` (low risk);
`ts` is the `datetime.now().isoformat()` value. -/
def mock_trx1 (ts : String) : TransactionModel :=
  { transaction_id := "TRX-001"
    account_id := "ACC-12345"
    transaction_type := TransactionType.transfer
    amount := 1200
    currency := "USD"
    recipient := some "Jane Smith"
    recipient_account := some "ACC-67890"
    timestamp := ts
    location := some "New York, USA"
    ip_address := some "192.168.1.1"
    device_id := some "DEVICE-001"
    risk_level := some RiskLevel.low
    risk_factors := some []
    approved := false
    approved_by := none
    approval_date := none }

/-- Second mock transaction TRX-002 of `get_mock_transactions` (high risk). -/
def mock_trx2 (ts : String) : TransactionModel :=
  { transaction_id := "TRX-002"
    account_id := "ACC-12345"
    transaction_type := TransactionType.wire
    amount := 25000
    currency := "USD"
    recipient := some "Acme Corp"
    recipient_account := some "ACC-99999"
    timestamp := ts
    location := some "Lagos, Nigeria"
    ip_address := some "203.0.113.42"
    device_id := some "DEVICE-002"
    risk_level := some RiskLevel.high
    risk_factors := some ["Unusual destination country",
      "Amount exceeds typical transaction",
      "First-time recipient",
      "Unusual time of day"]
    approved := false
    approved_by := none
    approval_date := none }

/-- `get_mock_transactions()` from the source. -/
def get_mock_transactions (ts : String) : List TransactionModel :=
  [mock_trx1 ts, mock_trx2 ts]

/-- `get_mock_account()` from the source. -/
def get_mock_account : AccountModel :=
  { account_id := "ACC-12345"
    customer_name := "John Doe"
    account_type := "Checking"
    balance := 35000
    currency := "USD"
    daily_limit := 10000
    country := "United States"
    usual_countries := ["United States", "Canada"]
    usual_transaction_amounts := [100, 500, 1000]
    usual_recipients := ["Jane Smith", "Bob Johnson", "Local Utility Co"]
    transaction_history_summary := "Regular payroll deposits. Typical transfers to family members. Regular payments for utilities and subscriptions. No international transfers in the past 6 months." }

/-- The reviewer identity used by `main`. -/
def main_reviewer : String := "Security Analyst Smith"

end TransactionShield

namespace TransactionShield

/-! ## Helper lemmas -/

/-- The mock evaluator is total: it always returns a verdict, and that verdict is
always `low` or `high` (it has no failure outcome and never returns `critical`). -/
theorem analyze_transaction_risk_total (t : TransactionModel) (a : AccountModel) :
    (analyze_transaction_risk t a).risk_level = RiskLevel.low ∨
    (analyze_transaction_risk t a).risk_level = RiskLevel.high := by
  unfold analyze_transaction_risk
  split
  · right
    rfl
  · left
    rfl

/-- The rejection message printed for TRX-002 does not contain the substring
"approved", so the approval-update branch of `main` is not taken on it. -/
theorem rejection_msg_trx2_no_approved :
    contains_approved (rejection_message "TRX-002" "Security Analyst Smith") = false := by
  decide

/-- The investigation message printed for TRX-002 does not contain the substring
"approved". -/
theorem investigation_msg_trx2_no_approved :
    contains_approved (investigation_message "TRX-002") = false := by
  decide

/-- The approval message printed for TRX-002 contains the substring "approved". -/
theorem approval_msg_trx2_approved :
    contains_approved (approval_message "TRX-002" 25000 "USD" "Security Analyst Smith") = true := by
  decide

/-! ## Claim C1 -/

/-- Claim C1: for every human response whose raw text is neither "yes" nor
"investigate" after normalization (by stripping and lowercasing — this covers
empty text, "maybe" and "no"), the high-risk session for mock transaction TRX-002
ends with the workflow reporting a rejection message, the approved flag still
false, the approver unset, and the final summary status "REJECTED": unrecognized
input never grants authorization. -/
theorem c1_unrecognized_response_rejected (ts now raw : String)
    (h1 : pyLower (pyStrip raw) ≠ "yes")
    (h2 : pyLower (pyStrip raw) ≠ "investigate") :
    (process_transaction "Security Analyst Smith" raw now get_mock_account
      (mock_trx2 ts)).transaction.approved = false ∧
    (process_transaction "Security Analyst Smith" raw now get_mock_account
      (mock_trx2 ts)).transaction.approved_by = none ∧
    report_status (process_transaction "Security Analyst Smith" raw now get_mock_account
      (mock_trx2 ts)).transaction = "REJECTED" ∧
    (process_transaction "Security Analyst Smith" raw now get_mock_account
      (mock_trx2 ts)).result_message =
      some (rejection_message "TRX-002" "Security Analyst Smith") := by
  simp [process_transaction, process_with_verdict, analyze_transaction_risk, mock_trx2,
    confirm_transaction, h1, h2, rejection_msg_trx2_no_approved, report_status]

/-- Witness for C1 at the concrete unrecognized response "maybe". -/
theorem c1_witness :
    pyLower (pyStrip "maybe") ≠ "yes" ∧
    pyLower (pyStrip "maybe") ≠ "investigate" ∧
    (process_transaction "Security Analyst Smith" "maybe" "2024-01-01T00:00:00"
      get_mock_account (mock_trx2 "2024-01-01T00:00:00")).transaction.approved = false :=
  ⟨by decide, by decide,
    (c1_unrecognized_response_rejected "2024-01-01T00:00:00" "2024-01-01T00:00:00" "maybe"
      (by decide) (by decide)).1⟩

end TransactionShield

namespace TransactionShield

/-! ## Claim C2 -/

/-- Claim C2: for every transaction whose risk verdict level is high or critical,
exactly one human-review prompt is sent for its session before it reaches a
terminal state, a workflow result (the human disposition) is produced, and the
transaction is never auto-approved: its approver is never the auto-approval
identity. -/
theorem c2_high_critical_single_prompt (reviewer_name raw_response now_iso : String)
    (ra : RiskAnalysis) (t0 : TransactionModel)
    (hlvl : ra.risk_level = RiskLevel.high ∨ ra.risk_level = RiskLevel.critical)
    (hab : t0.approved_by = none)
    (hrev : reviewer_name ≠ "Auto-approval System") :
    (process_with_verdict reviewer_name raw_response now_iso ra t0).prompts.length = 1 ∧
    (process_with_verdict reviewer_name raw_response now_iso ra t0).result_message.isSome = true ∧
    (process_with_verdict reviewer_name raw_response now_iso ra t0).transaction.approved_by ≠
      some "Auto-approval System" := by
  have hcond : ¬(ra.risk_level = RiskLevel.low ∨ ra.risk_level = RiskLevel.medium) := by
    rcases hlvl with h | h <;> rw [h] <;> decide
  unfold process_with_verdict
  rw [if_neg hcond]
  refine ⟨rfl, rfl, ?_⟩
  dsimp only
  split
  · simp [hrev]
  · simp [hab]

/-- Witness for C2: the high-risk mock transaction TRX-002 with response "yes"
receives exactly one prompt. -/
theorem c2_witness :
    ((analyze_transaction_risk (mock_trx2 "2024-01-01T00:00:00") get_mock_account).risk_level =
        RiskLevel.high ∨
      (analyze_transaction_risk (mock_trx2 "2024-01-01T00:00:00") get_mock_account).risk_level =
        RiskLevel.critical) ∧
    (mock_trx2 "2024-01-01T00:00:00").approved_by = none ∧
    (process_with_verdict "Security Analyst Smith" "yes" "2024-01-01T00:00:01"
      (analyze_transaction_risk (mock_trx2 "2024-01-01T00:00:00") get_mock_account)
      (mock_trx2 "2024-01-01T00:00:00")).prompts.length = 1 :=
  ⟨by decide, by decide,
    (c2_high_critical_single_prompt "Security Analyst Smith" "yes" "2024-01-01T00:00:01"
      (analyze_transaction_risk (mock_trx2 "2024-01-01T00:00:00") get_mock_account)
      (mock_trx2 "2024-01-01T00:00:00") (by decide) (by decide) (by decide)).1⟩

/-! ## Claim C4 -/

/-- Counterexample to claim C4: for the response "investigate" on the high-risk
mock transaction TRX-002, the final summary status the program reports is
"REJECTED", not "FlaggedForInvestigation" — the report of `main` knows only the
two statuses APPROVED and REJECTED. -/
theorem c4_counterexample :
    report_status (process_transaction "Security Analyst Smith" "investigate"
      "2024-01-01T00:00:00" get_mock_account
      (mock_trx2 "2024-01-01T00:00:00")).transaction = "REJECTED" ∧
    report_status (process_transaction "Security Analyst Smith" "investigate"
      "2024-01-01T00:00:00" get_mock_account
      (mock_trx2 "2024-01-01T00:00:00")).transaction ≠ "FlaggedForInvestigation" := by
  decide

/-- Claim C4 as amended: for every response whose raw text normalizes to
"investigate", the workflow result marks TRX-002 for further investigation and the
approver stays null with no approval time set, but the final summary reports the
status "REJECTED" (the report has only the two statuses APPROVED and REJECTED;
there is no FlaggedForInvestigation status). -/
theorem c4_investigate_flagged_not_approved (ts now raw : String)
    (h : pyLower (pyStrip raw) = "investigate") :
    (process_transaction "Security Analyst Smith" raw now get_mock_account
      (mock_trx2 ts)).result_message = some (investigation_message "TRX-002") ∧
    (process_transaction "Security Analyst Smith" raw now get_mock_account
      (mock_trx2 ts)).transaction.approved = false ∧
    (process_transaction "Security Analyst Smith" raw now get_mock_account
      (mock_trx2 ts)).transaction.approved_by = none ∧
    (process_transaction "Security Analyst Smith" raw now get_mock_account
      (mock_trx2 ts)).transaction.approval_date = none ∧
    report_status (process_transaction "Security Analyst Smith" raw now get_mock_account
      (mock_trx2 ts)).transaction = "REJECTED" := by
  simp [process_transaction, process_with_verdict, analyze_transaction_risk, mock_trx2,
    confirm_transaction, h, investigation_msg_trx2_no_approved, report_status]

/-- Witness for the amended C4 at the concrete response "investigate". -/
theorem c4_witness :
    pyLower (pyStrip "investigate") = "investigate" ∧
    (process_transaction "Security Analyst Smith" "investigate" "2024-01-01T00:00:00"
      get_mock_account (mock_trx2 "2024-01-01T00:00:00")).transaction.approved_by = none :=
  ⟨by decide,
    (c4_investigate_flagged_not_approved "2024-01-01T00:00:00" "2024-01-01T00:00:00"
      "investigate" (by decide)).2.2.1⟩

/-! ## Claim C5 -/

/-- Claim C5: for every response whose raw text case-insensitively equals "yes"
(after stripping), the high-risk session for mock transaction TRX-002 ends
Approved — the approved flag is set, the approver recorded on the transaction is
the responding reviewer identity "Security Analyst Smith", and the final summary
status is "APPROVED". -/
theorem c5_yes_approved_by_reviewer (ts now raw : String)
    (h : pyLower (pyStrip raw) = "yes") :
    (process_transaction "Security Analyst Smith" raw now get_mock_account
      (mock_trx2 ts)).transaction.approved = true ∧
    (process_transaction "Security Analyst Smith" raw now get_mock_account
      (mock_trx2 ts)).transaction.approved_by = some "Security Analyst Smith" ∧
    report_status (process_transaction "Security Analyst Smith" raw now get_mock_account
      (mock_trx2 ts)).transaction = "APPROVED" ∧
    (process_transaction "Security Analyst Smith" raw now get_mock_account
      (mock_trx2 ts)).result_message =
      some (approval_message "TRX-002" 25000 "USD" "Security Analyst Smith") := by
  simp [process_transaction, process_with_verdict, analyze_transaction_risk, mock_trx2,
    confirm_transaction, h, approval_msg_trx2_approved, report_status]

/-- Witness for C5 at the concrete response "YES" (case-insensitive match). -/
theorem c5_witness :
    pyLower (pyStrip "YES") = "yes" ∧
    (process_transaction "Security Analyst Smith" "YES" "2024-01-01T00:00:00"
      get_mock_account (mock_trx2 "2024-01-01T00:00:00")).transaction.approved_by =
      some "Security Analyst Smith" :=
  ⟨by decide,
    (c5_yes_approved_by_reviewer "2024-01-01T00:00:00" "2024-01-01T00:00:00" "YES"
      (by decide)).2.1⟩

end TransactionShield

namespace TransactionShield

/-! ## Claim C6 -/

/-- Counterexample to claim C6: the low-risk mock transaction TRX-001 is
auto-approved, but the approver recorded by the code is the string
"Auto-approval System", not the identity "auto-approval-system" the claim names. -/
theorem c6_counterexample :
    (process_transaction "Security Analyst Smith" "" "2024-01-01T00:00:00"
      get_mock_account (mock_trx1 "2024-01-01T00:00:00")).transaction.approved_by =
      some "Auto-approval System" ∧
    (process_transaction "Security Analyst Smith" "" "2024-01-01T00:00:00"
      get_mock_account (mock_trx1 "2024-01-01T00:00:00")).transaction.approved_by ≠
      some "auto-approval-system" := by
  decide

/-- Claim C6 as amended: for every transaction with verdict level low or medium,
the final status is Approved with the approver set to the auto-approval identity
"Auto-approval System" (the code writes this string, not "auto-approval-system"),
and no prompt is ever sent for that session. -/
theorem c6_low_medium_auto_approved (reviewer_name raw_response now_iso : String)
    (ra : RiskAnalysis) (t0 : TransactionModel)
    (hlvl : ra.risk_level = RiskLevel.low ∨ ra.risk_level = RiskLevel.medium) :
    (process_with_verdict reviewer_name raw_response now_iso ra t0).transaction.approved =
      true ∧
    (process_with_verdict reviewer_name raw_response now_iso ra t0).transaction.approved_by =
      some "Auto-approval System" ∧
    report_status (process_with_verdict reviewer_name raw_response now_iso ra
      t0).transaction = "APPROVED" ∧
    (process_with_verdict reviewer_name raw_response now_iso ra t0).prompts = [] := by
  unfold process_with_verdict
  rw [if_pos hlvl]
  exact ⟨rfl, rfl, rfl, rfl⟩

/-- Witness for the amended C6 at the low-risk mock transaction TRX-001. -/
theorem c6_witness :
    ((analyze_transaction_risk (mock_trx1 "2024-01-01T00:00:00") get_mock_account).risk_level =
        RiskLevel.low ∨
      (analyze_transaction_risk (mock_trx1 "2024-01-01T00:00:00") get_mock_account).risk_level =
        RiskLevel.medium) ∧
    (process_with_verdict "Security Analyst Smith" "" "2024-01-01T00:00:01"
      (analyze_transaction_risk (mock_trx1 "2024-01-01T00:00:00") get_mock_account)
      (mock_trx1 "2024-01-01T00:00:00")).prompts = [] :=
  ⟨by decide,
    (c6_low_medium_auto_approved "Security Analyst Smith" "" "2024-01-01T00:00:01"
      (analyze_transaction_risk (mock_trx1 "2024-01-01T00:00:00") get_mock_account)
      (mock_trx1 "2024-01-01T00:00:00") (by decide)).2.2.2⟩

/-! ## Claim C9 -/

/-- Claim C9: the human response text is normalized by stripping surrounding
whitespace and lowercasing before comparison, so every raw response whose
stripped, lowercased form equals "yes" takes the approval branch of
`confirm_transaction`, and likewise "investigate" takes the investigation
branch. -/
theorem c9_response_normalized (transaction_id : String) (amount : ℚ)
    (currency transaction_type recipient risk_level : String)
    (risk_factors : List String) (reviewer_name raw : String) :
    (pyLower (pyStrip raw) = "yes" →
      (confirm_transaction transaction_id amount currency transaction_type recipient
        risk_level risk_factors reviewer_name raw).2 =
        approval_message transaction_id amount currency reviewer_name) ∧
    (pyLower (pyStrip raw) = "investigate" →
      (confirm_transaction transaction_id amount currency transaction_type recipient
        risk_level risk_factors reviewer_name raw).2 =
        investigation_message transaction_id) := by
  constructor <;> intro h <;> simp [confirm_transaction, h]

/-- Witness for C9 at the concrete raw responses "  YES  " and " Investigate ". -/
theorem c9_witness :
    (pyLower (pyStrip "  YES  ") = "yes" ∧
      (confirm_transaction "TRX-002" 25000 "USD" "wire" "Acme Corp" "high" []
        "Security Analyst Smith" "  YES  ").2 =
        approval_message "TRX-002" 25000 "USD" "Security Analyst Smith") ∧
    (pyLower (pyStrip " Investigate ") = "investigate" ∧
      (confirm_transaction "TRX-002" 25000 "USD" "wire" "Acme Corp" "high" []
        "Security Analyst Smith" " Investigate ").2 =
        investigation_message "TRX-002") :=
  ⟨⟨by decide,
    (c9_response_normalized "TRX-002" 25000 "USD" "wire" "Acme Corp" "high" []
      "Security Analyst Smith" "  YES  ").1 (by decide)⟩,
   ⟨by decide,
    (c9_response_normalized "TRX-002" 25000 "USD" "wire" "Acme Corp" "high" []
      "Security Analyst Smith" " Investigate ").2 (by decide)⟩⟩

/-! ## Claim C10 -/

/-- Claim C10: auto-approving a low- or medium-risk transaction mutates only the
three disposition fields (approved, approved_by, approval_date); every other field
of the transaction — id, account id, type, amount, currency, recipient and
recipient account, timestamp, location, ip address, device id, and the risk fields
just assigned from the verdict — is left unchanged by the auto-approval step. -/
theorem c10_auto_approval_frame (reviewer_name raw_response now_iso : String)
    (ra : RiskAnalysis) (t0 : TransactionModel)
    (hlvl : ra.risk_level = RiskLevel.low ∨ ra.risk_level = RiskLevel.medium) :
    (process_with_verdict reviewer_name raw_response now_iso ra t0).transaction.transaction_id =
      t0.transaction_id ∧
    (process_with_verdict reviewer_name raw_response now_iso ra t0).transaction.account_id =
      t0.account_id ∧
    (process_with_verdict reviewer_name raw_response now_iso ra t0).transaction.transaction_type =
      t0.transaction_type ∧
    (process_with_verdict reviewer_name raw_response now_iso ra t0).transaction.amount =
      t0.amount ∧
    (process_with_verdict reviewer_name raw_response now_iso ra t0).transaction.currency =
      t0.currency ∧
    (process_with_verdict reviewer_name raw_response now_iso ra t0).transaction.recipient =
      t0.recipient ∧
    (process_with_verdict reviewer_name raw_response now_iso ra t0).transaction.recipient_account =
      t0.recipient_account ∧
    (process_with_verdict reviewer_name raw_response now_iso ra t0).transaction.timestamp =
      t0.timestamp ∧
    (process_with_verdict reviewer_name raw_response now_iso ra t0).transaction.location =
      t0.location ∧
    (process_with_verdict reviewer_name raw_response now_iso ra t0).transaction.ip_address =
      t0.ip_address ∧
    (process_with_verdict reviewer_name raw_response now_iso ra t0).transaction.device_id =
      t0.device_id ∧
    (process_with_verdict reviewer_name raw_response now_iso ra t0).transaction.risk_level =
      some ra.risk_level ∧
    (process_with_verdict reviewer_name raw_response now_iso ra t0).transaction.risk_factors =
      ra.risk_factors ∧
    (process_with_verdict reviewer_name raw_response now_iso ra t0).transaction.approved =
      true ∧
    (process_with_verdict reviewer_name raw_response now_iso ra t0).transaction.approved_by =
      some "Auto-approval System" ∧
    (process_with_verdict reviewer_name raw_response now_iso ra t0).transaction.approval_date =
      some now_iso := by
  unfold process_with_verdict
  rw [if_pos hlvl]
  exact ⟨rfl, rfl, rfl, rfl, rfl, rfl, rfl, rfl, rfl, rfl, rfl, rfl, rfl, rfl, rfl, rfl⟩

/-- Witness for C10 at the low-risk mock transaction TRX-001. -/
theorem c10_witness :
    ((analyze_transaction_risk (mock_trx1 "2024-01-01T00:00:00") get_mock_account).risk_level =
        RiskLevel.low ∨
      (analyze_transaction_risk (mock_trx1 "2024-01-01T00:00:00") get_mock_account).risk_level =
        RiskLevel.medium) ∧
    (process_with_verdict "Security Analyst Smith" "" "2024-01-01T00:00:01"
      (analyze_transaction_risk (mock_trx1 "2024-01-01T00:00:00") get_mock_account)
      (mock_trx1 "2024-01-01T00:00:00")).transaction.amount =
      (mock_trx1 "2024-01-01T00:00:00").amount :=
  ⟨by decide,
    (c10_auto_approval_frame "Security Analyst Smith" "" "2024-01-01T00:00:01"
      (analyze_transaction_risk (mock_trx1 "2024-01-01T00:00:00") get_mock_account)
      (mock_trx1 "2024-01-01T00:00:00") (by decide)).2.2.2.1⟩

end TransactionShield
